import Mathlib

/-!
Verification of the velocity-estimation core of the joycon_teleop repository.

The embedding models `src/velocity_estimator.py` (class `VelocityEstimator`)
and the stick normalization `normalize_axis` of `src/teleop.py` over exact
rationals.  Python's mutable `SimpleNamespace` 3-vectors become the `Vec3`
structure; the estimator's instance attributes become the fields of
`VelocityEstimator`.  The one place where object identity is observable —
`update` returning `self.velocity` itself (a reference to the internal,
later-mutated object) on the calibration-completing call, versus returning a
freshly constructed namespace everywhere else — is modelled by the `RetObj`
type: `RetObj.value v` is a fresh object holding `v`, `RetObj.velocityRef` is
the internal velocity object, whose observed contents at any time are the
current state's `velocity` field.
-/

/-- A 3-component vector: `SimpleNamespace(x=…, y=…, z=…)` in the source,
with exact rational components. -/
structure Vec3 where
  x : ℚ
  y : ℚ
  z : ℚ
deriving DecidableEq, Repr

/-- State of `VelocityEstimator`: the instance attributes set in `__init__`
(`src/velocity_estimator.py` lines 9-18). -/
structure VelocityEstimator where
  velocity : Vec3
  prev_accel : Vec3
  is_initialized : Bool
  sample_count : ℕ
  gravity_offset : Option Vec3
  init_samples : List Vec3
deriving DecidableEq, Repr

/-- `VelocityEstimator.__init__`: zero velocity, zero previous acceleration,
uncalibrated, no collected samples. -/
def VelocityEstimator.init : VelocityEstimator :=
  { velocity := ⟨0, 0, 0⟩
    prev_accel := ⟨0, 0, 0⟩
    is_initialized := false
    sample_count := 0
    gravity_offset := none
    init_samples := [] }

/-- `decay = 0.99` (line 80 of the source). -/
def DECAY : ℚ := 0.99

/-- `max_vel = 2.0` (line 89 of the source). -/
def V_MAX : ℚ := 2

/-- `max(lo, min(hi, v))`, the clamp idiom used at lines 90-92. -/
def clamp1 (lo hi v : ℚ) : ℚ := max lo (min hi v)

/-- `VelocityEstimator.initialize_gravity` (lines 20-34): append the sample;
once at least `samples` samples are collected, set `gravity_offset` to the
component-wise mean and flip `is_initialized`.  Returns the updated state and
the value of `self.is_initialized` the Python method returns. -/
def VelocityEstimator.initialize_gravity (s : VelocityEstimator) (accel : Vec3)
    (samples : ℕ) : VelocityEstimator × Bool :=
  let init_samples := s.init_samples ++ [accel]
  if samples ≤ init_samples.length then
    let n : ℚ := init_samples.length
    let g : Vec3 :=
      ⟨(init_samples.map Vec3.x).sum / n,
       (init_samples.map Vec3.y).sum / n,
       (init_samples.map Vec3.z).sum / n⟩
    ({ s with init_samples := init_samples, gravity_offset := some g,
              is_initialized := true }, true)
  else
    ({ s with init_samples := init_samples }, false)

/-- `VelocityEstimator._remove_gravity` (lines 36-42).  The source reads
`self.gravity_offset.x` unconditionally; when the offset is still `None` the
Python raises, but `update` only reaches this call when `is_initialized`, so
the `none` default below is unreachable along `update`. -/
def VelocityEstimator.remove_gravity (s : VelocityEstimator) (accel : Vec3) : Vec3 :=
  let g := s.gravity_offset.getD ⟨0, 0, 0⟩
  ⟨accel.x - g.x, accel.y - g.y, accel.z - g.z⟩

/-- The object `update` returns: either a freshly constructed namespace
(`SimpleNamespace(x=…, y=…, z=…)`, lines 53 and 94) or the internal
`self.velocity` object itself (`return self.velocity`, line 50). -/
inductive RetObj where
  | value : Vec3 → RetObj
  | velocityRef : RetObj
deriving DecidableEq, Repr

/-- The components a caller reads from a returned object when the estimator is
currently in state `s`: a fresh object holds its own components forever, while
the internal velocity object shows the current `velocity` field (the source
mutates that one object in place and never rebinds `self.velocity`). -/
def observe (s : VelocityEstimator) : RetObj → Vec3
  | .value v => v
  | .velocityRef => s.velocity

/-- `VelocityEstimator.update` (lines 44-94).  Branch 1 (uncalibrated): run
`initialize_gravity` with the default `samples = 3`; if that completed
calibration return the internal velocity object, otherwise a fresh zero
vector.  Branch 2 (calibrated): bump `sample_count`, remove gravity,
trapezoidal-integrate against `prev_accel` (the guard
`hasattr(self, 'prev_accel') and self.prev_accel is not None` is always true:
the attribute is set in `__init__` and only ever rebound to a fresh
namespace), decay by `0.99`, store the corrected sample as `prev_accel`,
clamp to `[-2, 2]`, and return a fresh copy of the clamped velocity. -/
def VelocityEstimator.update (s : VelocityEstimator) (raw_accel : Vec3) (dt : ℚ) :
    VelocityEstimator × RetObj :=
  if s.is_initialized = false then
    let p := s.initialize_gravity raw_accel 3
    if p.2 then (p.1, RetObj.velocityRef)
    else (p.1, RetObj.value ⟨0, 0, 0⟩)
  else
    let s1 := { s with sample_count := s.sample_count + 1 }
    let accel_corrected := s1.remove_gravity raw_accel
    let delta_vx := (accel_corrected.x + s1.prev_accel.x) / 2 * dt
    let delta_vy := (accel_corrected.y + s1.prev_accel.y) / 2 * dt
    let delta_vz := (accel_corrected.z + s1.prev_accel.z) / 2 * dt
    let v1 : Vec3 := ⟨s1.velocity.x + delta_vx, s1.velocity.y + delta_vy,
                      s1.velocity.z + delta_vz⟩
    let v2 : Vec3 := ⟨v1.x * DECAY, v1.y * DECAY, v1.z * DECAY⟩
    let v3 : Vec3 := ⟨clamp1 (-V_MAX) V_MAX v2.x, clamp1 (-V_MAX) V_MAX v2.y,
                      clamp1 (-V_MAX) V_MAX v2.z⟩
    ({ s1 with velocity := v3, prev_accel := accel_corrected },
     RetObj.value v3)

/-- Run a sequence of `update` calls from state `s`; return the final state
and the list of component values each call's returned object holds at the
moment it is returned. -/
def runUpdates : VelocityEstimator → List (Vec3 × ℚ) → VelocityEstimator × List Vec3
  | s, [] => (s, [])
  | s, (a, dt) :: rest =>
    let p := s.update a dt
    let q := runUpdates p.1 rest
    (q.1, observe p.1 p.2 :: q.2)

/-- State after three `update` calls on a fresh estimator, all fed sample `g`
(the calibration phase of the concrete scenarios). -/
def calibrate3 (g : Vec3) (d1 d2 d3 : ℚ) : VelocityEstimator :=
  (((VelocityEstimator.init.update g d1).1.update g d2).1.update g d3).1

/-- Iterate `update` with a constant raw sample and constant `dt`. -/
def stepN (s : VelocityEstimator) (a : Vec3) (dt : ℚ) : ℕ → VelocityEstimator
  | 0 => s
  | n + 1 => ((stepN s a dt n).update a dt).1

/-- The concrete calibration scenario of the spec: three `(0, 0, 9.8)`
samples fed to a fresh estimator at `dt = 1/100`; this is the third call's
result (state and returned object). -/
def scenario3 : VelocityEstimator × RetObj :=
  ((VelocityEstimator.init.update ⟨0, 0, 9.8⟩ (1/100)).1.update
      ⟨0, 0, 9.8⟩ (1/100)).1.update ⟨0, 0, 9.8⟩ (1/100)

/-- The fourth call of the concrete scenario: sample `(1, 0, 9.8)` at
`dt = 1/100` after the calibration of `scenario3`. -/
def scenario4 : VelocityEstimator × RetObj :=
  scenario3.1.update ⟨1, 0, 9.8⟩ (1/100)

/-- Every velocity component lies in `[-V_MAX, V_MAX]`. -/
def boundedVec (v : Vec3) : Prop := |v.x| ≤ V_MAX ∧ |v.y| ≤ V_MAX ∧ |v.z| ≤ V_MAX

/-- `normalize_axis` of `src/teleop.py` (lines 92-100): map a raw stick value
to `[-1, 1]` with a deadzone around the center. -/
def normalize_axis (v : ℤ) (center : ℤ) (span : ℤ) (deadzone : ℚ) : ℚ :=
  let x : ℚ := ((v : ℚ) - (center : ℚ)) / (span : ℚ)
  if |x| < deadzone then 0
  else max (-1) (min 1 x)

lemma abs_clamp1_le (v : ℚ) : |clamp1 (-V_MAX) V_MAX v| ≤ V_MAX := by
  rw [abs_le]
  exact ⟨le_max_left _ _, max_le (by norm_num [V_MAX]) (min_le_left _ _)⟩

lemma clamp1_eq_of_abs_le {v : ℚ} (h : |v| ≤ V_MAX) : clamp1 (-V_MAX) V_MAX v = v := by
  rw [abs_le] at h
  rw [clamp1, min_eq_right h.2, max_eq_right h.1]

lemma update_calibrated_eq (s : VelocityEstimator) (a : Vec3) (dt : ℚ)
    (h : s.is_initialized = true) :
    s.update a dt =
      ({ s with
          velocity :=
            ⟨clamp1 (-V_MAX) V_MAX
               ((s.velocity.x + ((s.remove_gravity a).x + s.prev_accel.x) / 2 * dt) * DECAY),
             clamp1 (-V_MAX) V_MAX
               ((s.velocity.y + ((s.remove_gravity a).y + s.prev_accel.y) / 2 * dt) * DECAY),
             clamp1 (-V_MAX) V_MAX
               ((s.velocity.z + ((s.remove_gravity a).z + s.prev_accel.z) / 2 * dt) * DECAY)⟩,
          prev_accel := s.remove_gravity a,
          sample_count := s.sample_count + 1 },
       RetObj.value
         ⟨clamp1 (-V_MAX) V_MAX
            ((s.velocity.x + ((s.remove_gravity a).x + s.prev_accel.x) / 2 * dt) * DECAY),
          clamp1 (-V_MAX) V_MAX
            ((s.velocity.y + ((s.remove_gravity a).y + s.prev_accel.y) / 2 * dt) * DECAY),
          clamp1 (-V_MAX) V_MAX
            ((s.velocity.z + ((s.remove_gravity a).z + s.prev_accel.z) / 2 * dt) * DECAY)⟩) := by
  simp [VelocityEstimator.update, VelocityEstimator.remove_gravity, h]

lemma update_not_init_velocity (s : VelocityEstimator) (a : Vec3) (dt : ℚ)
    (h : s.is_initialized = false) :
    ((s.update a dt).1).velocity = s.velocity := by
  simp [VelocityEstimator.update, VelocityEstimator.initialize_gravity, h]
  split <;> simp

lemma boundedVec_update (s : VelocityEstimator) (a : Vec3) (dt : ℚ)
    (h : boundedVec s.velocity) : boundedVec ((s.update a dt).1).velocity := by
  by_cases hi : s.is_initialized
  · rw [update_calibrated_eq s a dt hi]
    exact ⟨abs_clamp1_le _, abs_clamp1_le _, abs_clamp1_le _⟩
  · rw [update_not_init_velocity s a dt (by simpa using hi)]
    exact h

lemma update_not_init_ret (s : VelocityEstimator) (a : Vec3) (dt : ℚ)
    (h : s.is_initialized = false) :
    (s.update a dt).2 = RetObj.velocityRef ∨ (s.update a dt).2 = RetObj.value ⟨0, 0, 0⟩ := by
  simp [VelocityEstimator.update, VelocityEstimator.initialize_gravity, h]
  split <;> simp

lemma boundedVec_observe_update (s : VelocityEstimator) (a : Vec3) (dt : ℚ)
    (h : boundedVec s.velocity) :
    boundedVec (observe (s.update a dt).1 (s.update a dt).2) := by
  by_cases hi : s.is_initialized
  · rw [update_calibrated_eq s a dt hi]
    exact ⟨abs_clamp1_le _, abs_clamp1_le _, abs_clamp1_le _⟩
  · have hi' : s.is_initialized = false := by simpa using hi
    rcases update_not_init_ret s a dt hi' with hr | hr <;> rw [hr]
    · show boundedVec ((s.update a dt).1).velocity
      rw [update_not_init_velocity s a dt hi']
      exact h
    · simp only [observe]
      exact ⟨by norm_num [V_MAX], by norm_num [V_MAX], by norm_num [V_MAX]⟩

lemma calibrate3_spec (g : Vec3) (d1 d2 d3 : ℚ) :
    calibrate3 g d1 d2 d3 =
      { velocity := ⟨0, 0, 0⟩, prev_accel := ⟨0, 0, 0⟩, is_initialized := true,
        sample_count := 0, gravity_offset := some g, init_samples := [g, g, g] } := by
  obtain ⟨gx, gy, gz⟩ := g
  norm_num [calibrate3, VelocityEstimator.update, VelocityEstimator.init,
    VelocityEstimator.initialize_gravity, Vec3.mk.injEq]
  refine ⟨by ring, by ring, by ring⟩

lemma runUpdates_bounded (inputs : List (Vec3 × ℚ)) :
    ∀ s : VelocityEstimator, boundedVec s.velocity →
      boundedVec (runUpdates s inputs).1.velocity ∧
      ∀ v ∈ (runUpdates s inputs).2, boundedVec v := by
  induction inputs with
  | nil =>
    intro s hs
    exact ⟨hs, by simp [runUpdates]⟩
  | cons p rest ih =>
    intro s hs
    obtain ⟨a, dt⟩ := p
    simp only [runUpdates]
    have h1 := boundedVec_update s a dt hs
    have h2 := boundedVec_observe_update s a dt hs
    have h3 := ih (s.update a dt).1 h1
    refine ⟨h3.1, ?_⟩
    intro v hv
    rcases List.mem_cons.mp hv with rfl | hv
    · exact h2
    · exact h3.2 v hv

/-- C1: every component of every returned velocity vector, and of the internal
velocity state after every update, is clamped to `[-V_MAX, V_MAX]` with
`V_MAX = 2`, for any sequence of `update` calls on a fresh estimator. -/
theorem velocity_always_clamped (inputs : List (Vec3 × ℚ)) :
    boundedVec (runUpdates VelocityEstimator.init inputs).1.velocity ∧
    ∀ v ∈ (runUpdates VelocityEstimator.init inputs).2, boundedVec v := by
  have hb : boundedVec VelocityEstimator.init.velocity := by
    unfold boundedVec VelocityEstimator.init
    norm_num [V_MAX]
  exact runUpdates_bounded inputs VelocityEstimator.init hb

/-- Witness for C1 at a concrete call sequence and returned vector. -/
theorem velocity_always_clamped_w : boundedVec (Vec3.mk 0 0 0) :=
  (velocity_always_clamped [(⟨100, 0, 0⟩, 1)]).2 ⟨0, 0, 0⟩
    (by norm_num [runUpdates, VelocityEstimator.update, VelocityEstimator.init,
      VelocityEstimator.initialize_gravity, observe])

/-- C2: calibrating with three `(0, 0, 9.8)` samples and then feeding
`(1, 0, 9.8)` with `dt = 1/100` returns velocity `(0.00495, 0, 0)` within
`1e-6` per component. -/
theorem calibration_scenario_fourth_call :
    |(observe scenario4.1 scenario4.2).x - 0.00495| ≤ 1/1000000 ∧
    |(observe scenario4.1 scenario4.2).y| ≤ 1/1000000 ∧
    |(observe scenario4.1 scenario4.2).z| ≤ 1/1000000 := by
  have hv : observe scenario4.1 scenario4.2 = ⟨0.00495, 0, 0⟩ := by
    norm_num [scenario4, scenario3, VelocityEstimator.update, VelocityEstimator.init,
      VelocityEstimator.initialize_gravity, VelocityEstimator.remove_gravity,
      observe, clamp1, DECAY, V_MAX, min_def, max_def]
  rw [hv]
  norm_num

/-- C3: each of the first three `update` calls on a fresh estimator returns
the zero vector, and the internal velocity state stays exactly zero during
them (no integration, no decay). -/
theorem first_three_calls_zero (a1 a2 a3 : Vec3) (d1 d2 d3 : ℚ) :
    let p1 := VelocityEstimator.init.update a1 d1
    let p2 := p1.1.update a2 d2
    let p3 := p2.1.update a3 d3
    observe p1.1 p1.2 = ⟨0, 0, 0⟩ ∧ observe p2.1 p2.2 = ⟨0, 0, 0⟩ ∧
      observe p3.1 p3.2 = ⟨0, 0, 0⟩ ∧
      p1.1.velocity = ⟨0, 0, 0⟩ ∧ p2.1.velocity = ⟨0, 0, 0⟩ ∧ p3.1.velocity = ⟨0, 0, 0⟩ := by
  norm_num [VelocityEstimator.update, VelocityEstimator.init,
    VelocityEstimator.initialize_gravity, observe]

/-- C4: after three calls the estimator is calibrated and the gravity offset
is the component-wise mean of the three raw samples; in particular three
identical samples `g` give offset exactly `g`. -/
theorem gravity_offset_is_mean (a1 a2 a3 : Vec3) (d1 d2 d3 : ℚ) :
    let s3 := (((VelocityEstimator.init.update a1 d1).1.update a2 d2).1.update a3 d3).1
    s3.is_initialized = true ∧
      s3.gravity_offset =
        some ⟨(a1.x + a2.x + a3.x) / 3, (a1.y + a2.y + a3.y) / 3, (a1.z + a2.z + a3.z) / 3⟩ ∧
      ∀ g : Vec3, (calibrate3 g d1 d2 d3).gravity_offset = some g := by
  refine ⟨?_, ?_, ?_⟩
  · norm_num [VelocityEstimator.update, VelocityEstimator.init,
      VelocityEstimator.initialize_gravity]
  · norm_num [VelocityEstimator.update, VelocityEstimator.init,
      VelocityEstimator.initialize_gravity, Vec3.mk.injEq]
    refine ⟨by ring, by ring, by ring⟩
  · intro g
    rw [calibrate3_spec]

/-- C5: exhibit of the snapshot violation.  The calibration-completing third
call returns the internal velocity object (`return self.velocity`, line 50);
the fourth call mutates that object in place, so the vector the caller
received from the third call changes retroactively from `(0,0,0)` to
`(0.00495, 0, 0)`. -/
theorem third_call_return_mutates :
    scenario3.2 = RetObj.velocityRef ∧
    observe scenario3.1 scenario3.2 = ⟨0, 0, 0⟩ ∧
    observe scenario4.1 scenario3.2 = ⟨0.00495, 0, 0⟩ ∧
    observe scenario4.1 scenario3.2 ≠ observe scenario3.1 scenario3.2 := by
  norm_num [scenario4, scenario3, VelocityEstimator.update, VelocityEstimator.init,
    VelocityEstimator.initialize_gravity, VelocityEstimator.remove_gravity, observe,
    clamp1, DECAY, V_MAX, min_def, max_def, Vec3.mk.injEq]

/-- C6 counterexample: on a calibrated estimator a call with `dt = -1/100 ≤ 0`
does not return the velocity unchanged and signals nothing: it performs the
normal integration/decay step with the negative `dt`, yielding
`(-0.00495, 0, 0)`. -/
theorem negative_dt_integrates :
    let s := calibrate3 ⟨0, 0, 0⟩ (1/100) (1/100) (1/100)
    let p := s.update ⟨1, 0, 0⟩ (-(1/100))
    observe p.1 p.2 ≠ s.velocity ∧
      observe p.1 p.2 = ⟨-(0.00495 : ℚ), 0, 0⟩ ∧ p.1.velocity = ⟨-(0.00495 : ℚ), 0, 0⟩ := by
  norm_num [calibrate3, VelocityEstimator.update, VelocityEstimator.init,
    VelocityEstimator.initialize_gravity, VelocityEstimator.remove_gravity, observe,
    clamp1, DECAY, V_MAX, min_def, max_def, Vec3.mk.injEq]

/-- C6 amended: when `dt ≤ 0` is passed to a calibrated estimator, `update`
performs exactly the normal trapezoidal-integration, decay and clamp step
with that `dt` — there is no invalid-input check and no unchanged-velocity
early return. -/
theorem nonpositive_dt_normal_step (s : VelocityEstimator) (g a : Vec3) (dt : ℚ)
    (h1 : s.is_initialized = true) (h2 : s.gravity_offset = some g) (hdt : dt ≤ 0) :
    s.update a dt =
      ({ s with
          velocity :=
            ⟨clamp1 (-V_MAX) V_MAX ((s.velocity.x + (a.x - g.x + s.prev_accel.x) / 2 * dt) * DECAY),
             clamp1 (-V_MAX) V_MAX ((s.velocity.y + (a.y - g.y + s.prev_accel.y) / 2 * dt) * DECAY),
             clamp1 (-V_MAX) V_MAX ((s.velocity.z + (a.z - g.z + s.prev_accel.z) / 2 * dt) * DECAY)⟩,
          prev_accel := ⟨a.x - g.x, a.y - g.y, a.z - g.z⟩,
          sample_count := s.sample_count + 1 },
       RetObj.value
         ⟨clamp1 (-V_MAX) V_MAX ((s.velocity.x + (a.x - g.x + s.prev_accel.x) / 2 * dt) * DECAY),
          clamp1 (-V_MAX) V_MAX ((s.velocity.y + (a.y - g.y + s.prev_accel.y) / 2 * dt) * DECAY),
          clamp1 (-V_MAX) V_MAX ((s.velocity.z + (a.z - g.z + s.prev_accel.z) / 2 * dt) * DECAY)⟩) := by
  rw [update_calibrated_eq s a dt h1]
  simp [VelocityEstimator.remove_gravity, h2]

/-- Witness for C6's amended theorem at a concrete calibrated state and
`dt = -1/100`. -/
theorem nonpositive_dt_normal_step_w :
    (VelocityEstimator.update
        { velocity := ⟨0, 0, 0⟩, prev_accel := ⟨0, 0, 0⟩, is_initialized := true,
          sample_count := 0, gravity_offset := some ⟨0, 0, 0⟩,
          init_samples := [⟨0, 0, 0⟩, ⟨0, 0, 0⟩, ⟨0, 0, 0⟩] }
        ⟨1, 0, 0⟩ (-(1/100))).1.sample_count = 1 := by
  have h := nonpositive_dt_normal_step
    { velocity := ⟨0, 0, 0⟩, prev_accel := ⟨0, 0, 0⟩, is_initialized := true,
      sample_count := 0, gravity_offset := some ⟨0, 0, 0⟩,
      init_samples := [⟨0, 0, 0⟩, ⟨0, 0, 0⟩, ⟨0, 0, 0⟩] }
    ⟨0, 0, 0⟩ ⟨1, 0, 0⟩ (-(1/100)) rfl rfl (by norm_num)
  rw [h]

lemma update_const_g (s : VelocityEstimator) (g : Vec3) (dt : ℚ)
    (h1 : s.is_initialized = true) (h2 : s.gravity_offset = some g)
    (h3 : s.prev_accel = ⟨0, 0, 0⟩) (h4 : s.velocity = ⟨0, 0, 0⟩) :
    (s.update g dt).1 = { s with sample_count := s.sample_count + 1, prev_accel := ⟨0, 0, 0⟩ } ∧
    observe (s.update g dt).1 (s.update g dt).2 = ⟨0, 0, 0⟩ := by
  rw [update_calibrated_eq s g dt h1]
  norm_num [VelocityEstimator.remove_gravity, h2, h3, h4, observe, clamp1,
    DECAY, V_MAX, min_def, max_def, Vec3.mk.injEq, VelocityEstimator.mk.injEq]

lemma runUpdates_const_g (g : Vec3) (dts : List ℚ) :
    ∀ s : VelocityEstimator, s.is_initialized = true → s.gravity_offset = some g →
      s.prev_accel = ⟨0, 0, 0⟩ → s.velocity = ⟨0, 0, 0⟩ →
      (runUpdates s (dts.map fun d => (g, d))).1.velocity = ⟨0, 0, 0⟩ ∧
      ∀ v ∈ (runUpdates s (dts.map fun d => (g, d))).2, v = ⟨0, 0, 0⟩ := by
  induction dts with
  | nil =>
    intro s h1 h2 h3 h4
    exact ⟨h4, by simp [runUpdates]⟩
  | cons d rest ih =>
    intro s h1 h2 h3 h4
    simp only [List.map_cons, runUpdates]
    have hstep := update_const_g s g d h1 h2 h3 h4
    have hinv := ih (s.update g d).1 (by rw [hstep.1]; exact h1) (by rw [hstep.1]; exact h2)
      (by rw [hstep.1]) (by rw [hstep.1]; exact h4)
    refine ⟨hinv.1, ?_⟩
    intro v hv
    rcases List.mem_cons.mp hv with rfl | hv
    · exact hstep.2
    · exact hinv.2 v hv

/-- C7: after calibrating on three identical samples `g`, feeding the constant
raw sample `g` on every later call (any positive dts) returns exactly zero
every time and the velocity state stays exactly zero. -/
theorem constant_sample_keeps_velocity_zero (g : Vec3) (d1 d2 d3 : ℚ) (dts : List ℚ)
    (hdts : ∀ d ∈ dts, 0 < d) :
    (runUpdates (calibrate3 g d1 d2 d3) (dts.map fun d => (g, d))).1.velocity = ⟨0, 0, 0⟩ ∧
    ∀ v ∈ (runUpdates (calibrate3 g d1 d2 d3) (dts.map fun d => (g, d))).2, v = ⟨0, 0, 0⟩ := by
  have hc := calibrate3_spec g d1 d2 d3
  exact runUpdates_const_g g dts (calibrate3 g d1 d2 d3)
    (by rw [hc]) (by rw [hc]) (by rw [hc]) (by rw [hc])

/-- Witness for C7 with gravity along z and one post-calibration tick. -/
theorem constant_sample_keeps_velocity_zero_w :
    (runUpdates (calibrate3 ⟨0, 0, 9.8⟩ (1/100) (1/100) (1/100))
        ([1/100].map fun d => ((⟨0, 0, 9.8⟩ : Vec3), d))).1.velocity = ⟨0, 0, 0⟩ :=
  (constant_sample_keeps_velocity_zero ⟨0, 0, 9.8⟩ (1/100) (1/100) (1/100) [1/100]
    (by norm_num)).1

lemma abs_decay_mul_le {t : ℚ} (h : |t| ≤ V_MAX) : |t * DECAY| ≤ V_MAX := by
  rw [abs_mul]
  have hd : |DECAY| ≤ 1 := by rw [abs_le]; constructor <;> norm_num [DECAY]
  calc |t| * |DECAY| ≤ V_MAX * 1 :=
        mul_le_mul h hd (abs_nonneg _) (by norm_num [V_MAX])
    _ = V_MAX := mul_one _

lemma abs_decay_pow_mul_le {t : ℚ} (h : |t| ≤ V_MAX) (n : ℕ) : |DECAY ^ n * t| ≤ V_MAX := by
  rw [abs_mul]
  have h1 : |DECAY ^ n| ≤ 1 := by
    rw [abs_pow]
    refine pow_le_one₀ (by norm_num [DECAY]) (by rw [abs_le]; constructor <;> norm_num [DECAY])
  calc |DECAY ^ n| * |t| ≤ 1 * V_MAX := mul_le_mul h1 h (abs_nonneg _) (by norm_num)
    _ = V_MAX := one_mul _

lemma update_decay_step (s : VelocityEstimator) (g : Vec3) (dt : ℚ)
    (h1 : s.is_initialized = true) (h2 : s.gravity_offset = some g)
    (h3 : s.prev_accel = ⟨0, 0, 0⟩) (hb : boundedVec s.velocity) :
    (s.update g dt).1 =
      { s with
          velocity := ⟨s.velocity.x * DECAY, s.velocity.y * DECAY, s.velocity.z * DECAY⟩,
          prev_accel := ⟨0, 0, 0⟩, sample_count := s.sample_count + 1 } ∧
    observe (s.update g dt).1 (s.update g dt).2 =
      ⟨s.velocity.x * DECAY, s.velocity.y * DECAY, s.velocity.z * DECAY⟩ := by
  rw [update_calibrated_eq s g dt h1]
  have hx := clamp1_eq_of_abs_le (abs_decay_mul_le hb.1)
  have hy := clamp1_eq_of_abs_le (abs_decay_mul_le hb.2.1)
  have hz := clamp1_eq_of_abs_le (abs_decay_mul_le hb.2.2)
  simp [VelocityEstimator.remove_gravity, h2, h3, observe, hx, hy, hz]

lemma stepN_decay_aux (s : VelocityEstimator) (g : Vec3) (dt : ℚ)
    (h1 : s.is_initialized = true) (h2 : s.gravity_offset = some g)
    (h3 : s.prev_accel = ⟨0, 0, 0⟩) (hb : boundedVec s.velocity) :
    ∀ n : ℕ,
      (stepN s g dt n).velocity =
        ⟨DECAY ^ n * s.velocity.x, DECAY ^ n * s.velocity.y, DECAY ^ n * s.velocity.z⟩ ∧
      (stepN s g dt n).is_initialized = true ∧
      (stepN s g dt n).gravity_offset = some g ∧
      (stepN s g dt n).prev_accel = ⟨0, 0, 0⟩ := by
  intro n
  induction n with
  | zero => exact ⟨by simp [stepN], h1, h2, h3⟩
  | succ n ihn =>
    obtain ⟨hv, hi, ho, hp⟩ := ihn
    have hbn : boundedVec (stepN s g dt n).velocity := by
      rw [hv]
      exact ⟨abs_decay_pow_mul_le hb.1 n, abs_decay_pow_mul_le hb.2.1 n,
        abs_decay_pow_mul_le hb.2.2 n⟩
    have hstep := update_decay_step (stepN s g dt n) g dt hi ho hp hbn
    refine ⟨?_, ?_, ?_, ?_⟩
    · show ((stepN s g dt n).update g dt).1.velocity = _
      rw [hstep.1, hv]
      simp only [Vec3.mk.injEq]
      refine ⟨by ring, by ring, by ring⟩
    · show ((stepN s g dt n).update g dt).1.is_initialized = true
      rw [hstep.1]; exact hi
    · show ((stepN s g dt n).update g dt).1.gravity_offset = some g
      rw [hstep.1]; exact ho
    · show ((stepN s g dt n).update g dt).1.prev_accel = ⟨0, 0, 0⟩
      rw [hstep.1]

/-- C8: on a calibrated state with zero stored previous corrected
acceleration and clamped velocity, an update whose corrected acceleration is
zero (raw sample equal to the gravity offset) sets and returns exactly
`DECAY` times the velocity, and iterating shrinks the velocity geometrically:
after `n` such ticks it is `DECAY ^ n` times the initial one. -/
theorem decay_geometric (s : VelocityEstimator) (g : Vec3) (dt : ℚ)
    (h1 : s.is_initialized = true) (h2 : s.gravity_offset = some g)
    (h3 : s.prev_accel = ⟨0, 0, 0⟩) (hb : boundedVec s.velocity) :
    ((s.update g dt).1.velocity =
        ⟨DECAY * s.velocity.x, DECAY * s.velocity.y, DECAY * s.velocity.z⟩ ∧
      observe (s.update g dt).1 (s.update g dt).2 =
        ⟨DECAY * s.velocity.x, DECAY * s.velocity.y, DECAY * s.velocity.z⟩) ∧
    ∀ n : ℕ, (stepN s g dt n).velocity =
      ⟨DECAY ^ n * s.velocity.x, DECAY ^ n * s.velocity.y, DECAY ^ n * s.velocity.z⟩ := by
  have hstep := update_decay_step s g dt h1 h2 h3 hb
  refine ⟨⟨?_, ?_⟩, fun n => (stepN_decay_aux s g dt h1 h2 h3 hb n).1⟩
  · rw [hstep.1]
    simp only [Vec3.mk.injEq]
    refine ⟨by ring, by ring, by ring⟩
  · rw [hstep.2]
    simp only [Vec3.mk.injEq]
    refine ⟨by ring, by ring, by ring⟩

/-- Witness for C8: from velocity `(1,0,0)` two decay-only ticks leave
`DECAY ^ 2 * 1` in the x component. -/
theorem decay_geometric_w :
    (stepN
        { velocity := ⟨1, 0, 0⟩, prev_accel := ⟨0, 0, 0⟩, is_initialized := true,
          sample_count := 0, gravity_offset := some ⟨0, 0, 9.8⟩,
          init_samples := [⟨0, 0, 9.8⟩, ⟨0, 0, 9.8⟩, ⟨0, 0, 9.8⟩] }
        ⟨0, 0, 9.8⟩ (1/100) 2).velocity =
      ⟨DECAY ^ 2 * 1, DECAY ^ 2 * 0, DECAY ^ 2 * 0⟩ := by
  have h := decay_geometric
    { velocity := ⟨1, 0, 0⟩, prev_accel := ⟨0, 0, 0⟩, is_initialized := true,
      sample_count := 0, gravity_offset := some ⟨0, 0, 9.8⟩,
      init_samples := [⟨0, 0, 9.8⟩, ⟨0, 0, 9.8⟩, ⟨0, 0, 9.8⟩] }
    ⟨0, 0, 9.8⟩ (1/100) rfl rfl rfl
    ⟨by norm_num [V_MAX], by norm_num [V_MAX], by norm_num [V_MAX]⟩
  exact h.2 2

/-- C9: once `is_initialized` is set, any further sequence of `update` calls
leaves the calibrated flag, the gravity offset and the collected calibration
samples unchanged: the estimator never re-enters the collecting state. -/
theorem calibration_is_permanent (s : VelocityEstimator) (inputs : List (Vec3 × ℚ))
    (h : s.is_initialized = true) :
    (runUpdates s inputs).1.is_initialized = true ∧
    (runUpdates s inputs).1.gravity_offset = s.gravity_offset ∧
    (runUpdates s inputs).1.init_samples = s.init_samples := by
  induction inputs generalizing s with
  | nil => exact ⟨h, rfl, rfl⟩
  | cons p rest ih =>
    obtain ⟨a, dt⟩ := p
    simp only [runUpdates]
    have hstep := update_calibrated_eq s a dt h
    have hne := ih (s.update a dt).1 (by rw [hstep]; exact h)
    refine ⟨hne.1, hne.2.1.trans ?_, hne.2.2.trans ?_⟩
    · rw [hstep]
    · rw [hstep]

/-- Witness for C9 at a concrete calibrated state and one further call. -/
theorem calibration_is_permanent_w :
    (runUpdates
        { velocity := ⟨1, 0, 0⟩, prev_accel := ⟨0, 0, 0⟩, is_initialized := true,
          sample_count := 0, gravity_offset := some ⟨0, 0, 9.8⟩,
          init_samples := [⟨0, 0, 9.8⟩, ⟨0, 0, 9.8⟩, ⟨0, 0, 9.8⟩] }
        [(⟨3, 1, 4⟩, 1/100)]).1.gravity_offset = some ⟨0, 0, 9.8⟩ := by
  have h := calibration_is_permanent
    { velocity := ⟨1, 0, 0⟩, prev_accel := ⟨0, 0, 0⟩, is_initialized := true,
      sample_count := 0, gravity_offset := some ⟨0, 0, 9.8⟩,
      init_samples := [⟨0, 0, 9.8⟩, ⟨0, 0, 9.8⟩, ⟨0, 0, 9.8⟩] }
    [(⟨3, 1, 4⟩, 1/100)] rfl
  exact h.2.1

/-- C10: with the default parameters (`center = 2048`, `span = 2048`,
`deadzone = 0.05`), `normalize_axis` always returns a value in `[-1, 1]`, and
returns exactly `0` whenever the scaled offset is inside the deadzone. -/
theorem normalize_axis_default (v : ℤ) :
    |normalize_axis v 2048 2048 0.05| ≤ 1 ∧
    (|((v : ℚ) - 2048) / 2048| < 0.05 → normalize_axis v 2048 2048 0.05 = 0) := by
  simp only [normalize_axis]
  constructor
  · split
    · norm_num
    · rw [abs_le]
      exact ⟨le_max_left _ _, max_le (by norm_num) (min_le_left _ _)⟩
  · intro hc
    split
    · rfl
    · rename_i hx
      push_cast at hx
      exact absurd hc hx

/-- Witness for C10 at raw value 2100, which falls inside the deadzone. -/
theorem normalize_axis_default_w :
    |normalize_axis 2100 2048 2048 0.05| ≤ 1 ∧ normalize_axis 2100 2048 2048 0.05 = 0 :=
  ⟨(normalize_axis_default 2100).1, (normalize_axis_default 2100).2 (by rw [abs_lt]; norm_num)⟩
